import Mathlib

/-
  Verification development for the NET-NiNJA repository.

  Shallow embedding of:
  - src/feature_matrix.py  (FeatureDefinition, resolve_feature_support)
  - src/capabilities.py    (CapabilityMatrix, detect_capabilities and its probes)
  - src/netreaper_gui.py   (stop_all_tasks process/job bookkeeping)
  - the Job Manager gating state machine (job_pipeline, modelled from the spec
    because the module itself is not part of the provided sources).

  Python dicts are modelled as association lists with first-match lookup
  (all construction sites insert distinct keys, so this agrees with dict
  semantics), machine booleans as Bool, strings as String, and the ambient
  filesystem consulted by shutil.which as an explicit function argument.
  Python code that may raise is modelled with Except String.
-/

namespace NetNinja

/-- First-match association-list lookup, the model of Python dict lookup. -/
def lookupStr {α : Type} : List (String × α) → String → Option α
  | [], _ => none
  | (k, v) :: rest, n => if k = n then some v else lookupStr rest n

/-- Python `d.get(k, dflt)`. -/
def dictGet {α : Type} (m : List (String × α)) (k : String) (dflt : α) : α :=
  match lookupStr m k with
  | some v => v
  | none => dflt

/-- Python `d.get(k, False)` for bool-valued dicts. -/
def dictGetB (m : List (String × Bool)) (k : String) : Bool :=
  dictGet m k false

/- ### src/feature_matrix.py -/

/-- The SupportLevel literal type of feature_matrix.py. -/
inductive SupportLevel
  | native
  | limited
  | unsupported
  | external_required
  deriving DecidableEq, Repr

/-- FeatureDefinition dataclass (src/feature_matrix.py lines 10-29). -/
structure FeatureDefinition where
  key : String
  support_windows : SupportLevel
  support_linux : SupportLevel
  requires_admin : Bool
  requires_tools : List String
  windows_notes : String
  linux_notes : String
  recommended_path : String
  deriving DecidableEq, Repr

/-- FeatureDefinition.support_for (lines 21-24): windows field for "windows",
the linux field for every other os key. -/
def FeatureDefinition.support_for (d : FeatureDefinition) (os_key : String) : SupportLevel :=
  if os_key = "windows" then d.support_windows else d.support_linux

/-- FeatureDefinition.notes_for (lines 26-29). -/
def FeatureDefinition.notes_for (d : FeatureDefinition) (os_key : String) : String :=
  if os_key = "windows" then d.windows_notes else d.linux_notes

/-- The missing-tools loop of resolve_feature_support (lines 357-360):
a required tool is missing when the snapshot marks it absent AND a fresh
shutil.which lookup (the `which` argument) also fails. -/
def missingTools (d : FeatureDefinition) (tools : List (String × Bool))
    (which : String → Option String) : List String :=
  d.requires_tools.filter (fun tool => !(dictGetB tools tool) && (which tool).isNone)

/-- The result dict of resolve_feature_support (lines 373-383), one field per key. -/
structure EffectiveSupport where
  base_support : SupportLevel
  effective_support : SupportLevel
  enabled : Bool
  reason : String
  requires_admin : Bool
  requires_tools : List String
  notes : String
  recommended_path : String
  badge : String
  deriving DecidableEq, Repr

/-- resolve_feature_support (src/feature_matrix.py lines 344-383).
`which` models the ambient shutil.which lookups performed on line 359. -/
def resolve_feature_support (d : FeatureDefinition) (os_key : String)
    (tools : List (String × Bool)) (is_admin : Bool)
    (which : String → Option String) : EffectiveSupport :=
  let base_support := d.support_for os_key
  let notes := d.notes_for os_key
  let reasons1 : List String :=
    if base_support = SupportLevel.unsupported then
      ["Unsupported on " ++ os_key]
    else if base_support = SupportLevel.external_required then
      ["External/WSL required on " ++ os_key]
    else []
  let reasons2 : List String :=
    if d.requires_admin && !is_admin then
      reasons1 ++ ["Requires administrator/root privileges"]
    else reasons1
  let missing := missingTools d tools which
  let reasons3 : List String :=
    if missing.isEmpty then reasons2
    else reasons2 ++ ["Missing tool: " ++ String.intercalate ", " missing]
  let enabled0 := reasons3.isEmpty
  let enabled :=
    if base_support = SupportLevel.unsupported ∨ base_support = SupportLevel.external_required
    then false else enabled0
  let effective_support :=
    if enabled then base_support
    else if base_support = SupportLevel.unsupported ∨ base_support = SupportLevel.external_required
    then base_support else SupportLevel.unsupported
  { base_support := base_support
    effective_support := effective_support
    enabled := enabled
    reason := String.intercalate "; " reasons3
    requires_admin := d.requires_admin
    requires_tools := d.requires_tools
    notes := notes
    recommended_path := d.recommended_path
    badge := if base_support = SupportLevel.external_required then "WSL/External Required" else "" }

/-- A shutil.which environment in which no tool is on PATH. -/
def whichNone : String → Option String := fun _ => none

/-- Scenario A definition: supportByOS {linux: native} (windows entry absent,
hence unsupported), requiresAdmin true, requiredTools ["foo"]. -/
def defnX : FeatureDefinition :=
  { key := "x"
    support_windows := SupportLevel.unsupported
    support_linux := SupportLevel.native
    requires_admin := true
    requires_tools := ["foo"]
    windows_notes := ""
    linux_notes := ""
    recommended_path := "" }

/- ### src/capabilities.py -/

/-- CapabilityMatrix dataclass (src/capabilities.py lines 11-26). -/
structure CapabilityMatrix where
  platform : String
  is_windows : Bool
  is_linux : Bool
  is_wsl : Bool
  is_admin : Bool
  tools : List (String × Bool)
  feature_flags : List (String × Bool)
  reasons : List (String × String)
  deriving DecidableEq, Repr

/-- CapabilityMatrix.flag (lines 22-23): `bool(self.feature_flags.get(name, False))`. -/
def CapabilityMatrix.flag (m : CapabilityMatrix) (name : String) : Bool :=
  dictGet m.feature_flags name false

/-- CapabilityMatrix.reason (lines 25-26): `self.reasons.get(name, "")`. -/
def CapabilityMatrix.reason (m : CapabilityMatrix) (name : String) : String :=
  dictGet m.reasons name ""

/-- The ambient system state read by the probes of capabilities.py.
Fields that model Python calls that can raise are Except-valued; an
`Except.error` value stands for the call raising an exception. -/
structure PyEnv where
  /-- platform.system() -/
  system : String
  /-- shutil.which(name) is not None; a plain PATH lookup, does not raise. -/
  hasTool : String → Bool
  /-- return code of `powershell -NoProfile -Command Get-Command <c>`;
  error = the subprocess.run call raised (timeout, missing binary, ...). -/
  runPowershell : String → Except String Int
  /-- ctypes.windll.shell32.IsUserAnAdmin(); error = any exception. -/
  isUserAnAdmin : Except String Bool
  /-- os.geteuid(); none = AttributeError (attribute absent on this platform). -/
  geteuid : Option Nat
  /-- os.environ.get("WSL_INTEROP") -/
  wslInterop : Option String
  /-- os.environ.get("WSL_DISTRO_NAME") -/
  wslDistroName : Option String
  /-- (returncode, stdout) of `sc query npcap`; error = any exception. -/
  scQueryNpcap : Except String (Int × String)

/-- Characterwise string map, the model of Python str.lower()/str.upper()
(as used here only on ASCII tool output and platform names). -/
def strMapChars (f : Char → Char) (s : String) : String := ⟨s.data.map f⟩

/-- Python truthiness of `os.environ.get(...)`: a present, non-empty string. -/
def truthy : Option String → Bool
  | none => false
  | some s => !(s.isEmpty)

/-- Char-list version of `small parts of str.startswith`, used for substring search. -/
def listStartsWith : List Char → List Char → Bool
  | [], _ => true
  | _ :: _, [] => false
  | a :: as, b :: bs => a == b && listStartsWith as bs

/-- Substring containment on char lists, used for `"RUNNING" in stdout.upper()`. -/
def listContains (needle : List Char) : List Char → Bool
  | [] => needle.isEmpty
  | c :: rest => listStartsWith needle (c :: rest) || listContains needle rest

/-- _has_powershell_cmdlet (lines 33-45): returns False when powershell is
absent; catches every exception of the subprocess call and returns False. -/
def has_powershell_cmdlet (env : PyEnv) (cmdlet : String) : Except String Bool :=
  if !(env.hasTool "powershell") then Except.ok false
  else
    match env.runPowershell cmdlet with
    | Except.ok rc => Except.ok (rc == 0)
    | Except.error _ => Except.ok false

/-- Collapsed value of has_powershell_cmdlet (it never raises). -/
def has_powershell_cmdletB (env : PyEnv) (cmdlet : String) : Bool :=
  if !(env.hasTool "powershell") then false
  else
    match env.runPowershell cmdlet with
    | Except.ok rc => rc == 0
    | Except.error _ => false

/-- _is_admin_windows (lines 48-54): catches every exception and returns False. -/
def is_admin_windows (env : PyEnv) : Except String Bool :=
  match env.isUserAnAdmin with
  | Except.ok b => Except.ok b
  | Except.error _ => Except.ok false

/-- Collapsed value of is_admin_windows. -/
def is_admin_windowsB (env : PyEnv) : Bool :=
  match env.isUserAnAdmin with
  | Except.ok b => b
  | Except.error _ => false

/-- _is_admin_linux (lines 57-61): catches AttributeError and returns False. -/
def is_admin_linux (env : PyEnv) : Except String Bool :=
  match env.geteuid with
  | some uid => Except.ok (uid == 0)
  | none => Except.ok false

/-- Collapsed value of is_admin_linux. -/
def is_admin_linuxB (env : PyEnv) : Bool :=
  match env.geteuid with
  | some uid => uid == 0
  | none => false

/-- _detect_wsl (lines 64-65). -/
def detect_wsl (env : PyEnv) : Bool :=
  truthy env.wslInterop || truthy env.wslDistroName

/-- _detect_npcap (lines 72-82): catches every exception and returns False. -/
def detect_npcap (env : PyEnv) : Except String Bool :=
  match env.scQueryNpcap with
  | Except.ok (rc, out) =>
      Except.ok (rc == 0 && listContains "RUNNING".toList (strMapChars Char.toUpper out).toList)
  | Except.error _ => Except.ok false

/-- Collapsed value of detect_npcap. -/
def detect_npcapB (env : PyEnv) : Bool :=
  match env.scQueryNpcap with
  | Except.ok (rc, out) => rc == 0 && listContains "RUNNING".toList (strMapChars Char.toUpper out).toList
  | Except.error _ => false

/-- `platform.system().lower()` (line 86). -/
def systemLower (env : PyEnv) : String := strMapChars Char.toLower env.system

/-- `system == "windows"` (line 87). -/
def isWindowsOf (env : PyEnv) : Bool := systemLower env == "windows"

/-- `system == "linux"` (line 88). -/
def isLinuxOf (env : PyEnv) : Bool := systemLower env == "linux"

/-- Tool names probed on Linux (line 94). -/
def linuxToolNames : List String :=
  ["ip", "iw", "nmcli", "ss", "nmap", "arp-scan", "ethtool", "ping"]

/-- Tool names probed on Windows (line 97). -/
def windowsToolNames : List String :=
  ["ipconfig", "getmac", "route", "netsh", "arp", "netstat", "ping", "powershell", "nmap"]

/-- PowerShell cmdlets probed on Windows (lines 101-106). -/
def psCmdlets : List String :=
  ["Get-NetAdapter", "Get-NetIPAddress", "Get-NetRoute", "Get-NetTCPConnection",
   "Get-NetUDPEndpoint", "Get-NetNeighbor"]

/-- The cmdlet-probe loop of detect_capabilities, Except-valued. -/
def checkCmdlets (env : PyEnv) : List String → Except String (List (String × Bool))
  | [] => Except.ok []
  | c :: rest => do
      let b ← has_powershell_cmdlet env c
      let tail ← checkCmdlets env rest
      pure ((c, b) :: tail)

/-- Collapsed value of the cmdlet-probe loop. -/
def checkCmdletsB (env : PyEnv) (l : List String) : List (String × Bool) :=
  l.map (fun c => (c, has_powershell_cmdletB env c))

/-- One `feature_flags[k] = v; if not v: reasons[k] = msg` statement pair of
detect_capabilities (lines 111-167). -/
def addFlag (st : List (String × Bool) × List (String × String))
    (k : String) (v : Bool) (msg : String) :
    List (String × Bool) × List (String × String) :=
  (st.1 ++ [(k, v)], if v then st.2 else st.2 ++ [(k, msg)])

/-- The Linux feature-flag block (lines 111-138). -/
def linuxFlags (st0 : List (String × Bool) × List (String × String))
    (tools : List (String × Bool)) :
    List (String × Bool) × List (String × String) :=
  addFlag (addFlag (addFlag (addFlag (addFlag (addFlag (addFlag st0
    "can_list_interfaces" (dictGetB tools "ip") "Missing tool: ip")
    "can_show_routes" (dictGetB tools "ip") "Missing tool: ip")
    "can_list_sockets" (dictGetB tools "ss") "Missing tool: ss")
    "can_read_neighbors" (dictGetB tools "ip") "Missing tool: ip")
    "can_scan_wifi" (dictGetB tools "nmcli" || dictGetB tools "iw") "Missing tool: nmcli or iw")
    "can_host_discovery_quick" (dictGetB tools "ip" || dictGetB tools "ping") "Missing tool: ip or ping")
    "can_host_discovery_full" (dictGetB tools "nmap") "Missing tool: nmap"

/-- The Windows feature-flag block (lines 140-167). -/
def windowsFlags (st0 : List (String × Bool) × List (String × String))
    (tools : List (String × Bool)) :
    List (String × Bool) × List (String × String) :=
  addFlag (addFlag (addFlag (addFlag (addFlag (addFlag (addFlag st0
    "can_list_interfaces" (dictGetB tools "Get-NetAdapter" || dictGetB tools "ipconfig")
      "Missing PowerShell Get-NetAdapter or ipconfig")
    "can_show_routes" (dictGetB tools "Get-NetRoute" || dictGetB tools "route")
      "Missing PowerShell Get-NetRoute or route")
    "can_list_sockets" (dictGetB tools "Get-NetTCPConnection" || dictGetB tools "netstat")
      "Missing PowerShell Get-NetTCPConnection or netstat")
    "can_read_neighbors" (dictGetB tools "Get-NetNeighbor" || dictGetB tools "arp")
      "Missing PowerShell Get-NetNeighbor or arp")
    "can_scan_wifi" (dictGetB tools "netsh") "Missing tool: netsh")
    "can_host_discovery_quick" (dictGetB tools "arp" || dictGetB tools "ping")
      "Missing tool: arp or ping")
    "can_host_discovery_full" (dictGetB tools "nmap" || dictGetB tools "wsl")
      "Missing tool: nmap"

/-- The full feature-flag/reason construction of detect_capabilities before the
admin advisory step: a function of the two OS booleans and the tools dict only. -/
def buildFlagsReasons (is_linux is_windows : Bool) (tools : List (String × Bool)) :
    List (String × Bool) × List (String × String) :=
  let st1 := if is_linux then linuxFlags ([], []) tools else ([], [])
  if is_windows then windowsFlags st1 tools else st1

/-- Python `reasons.setdefault(k, v)`. -/
def setdefault (m : List (String × String)) (k v : String) : List (String × String) :=
  match lookupStr m k with
  | some _ => m
  | none => m ++ [(k, v)]

/-- The advisory string attached on missing admin (line 172). -/
def adminAdvisoryMsg : String := "Admin privileges recommended for full results"

/-- The `if not is_admin` advisory loop of detect_capabilities (lines 169-172):
touches only `reasons`, via setdefault, for the two elevated-access flags, and
only when the flag is currently true. -/
def adminAdvisory (is_admin : Bool) (ff : List (String × Bool))
    (rs : List (String × String)) :
    List (String × Bool) × List (String × String) :=
  if is_admin then (ff, rs)
  else
    let rs1 := if dictGetB ff "can_scan_wifi" then setdefault rs "can_scan_wifi" adminAdvisoryMsg else rs
    let rs2 := if dictGetB ff "can_host_discovery_full" then
        setdefault rs1 "can_host_discovery_full" adminAdvisoryMsg else rs1
    (ff, rs2)

/-- Collapsed tools dict built by detect_capabilities (lines 92-106). -/
def toolsOf (env : PyEnv) : List (String × Bool) :=
  (if isLinuxOf env then linuxToolNames.map (fun t => (t, env.hasTool t)) else [])
  ++ (if isWindowsOf env then
        windowsToolNames.map (fun t => (t, env.hasTool t))
          ++ [("wsl", env.hasTool "wsl"), ("npcap", detect_npcapB env)]
          ++ checkCmdletsB env psCmdlets
      else [])

/-- `is_admin` value computed on line 90, collapsed. -/
def isAdminOf (env : PyEnv) : Bool :=
  if isWindowsOf env then is_admin_windowsB env else is_admin_linuxB env

/-- Flags and reasons before the admin advisory step, for a given environment. -/
def preOf (env : PyEnv) : List (String × Bool) × List (String × String) :=
  buildFlagsReasons (isLinuxOf env) (isWindowsOf env) (toolsOf env)

/-- Flags and reasons after the admin advisory step. -/
def postOf (env : PyEnv) : List (String × Bool) × List (String × String) :=
  adminAdvisory (isAdminOf env) (preOf env).1 (preOf env).2

/-- The CapabilityMatrix that detect_capabilities produces (exception-free
collapse; detect_capabilities_ok below proves the two agree). -/
def detect_pure (env : PyEnv) : CapabilityMatrix :=
  { platform := env.system
    is_windows := isWindowsOf env
    is_linux := isLinuxOf env
    is_wsl := detect_wsl env
    is_admin := isAdminOf env
    tools := toolsOf env
    feature_flags := (postOf env).1
    reasons := (postOf env).2 }

/-- detect_capabilities (src/capabilities.py lines 85-183), Except-valued: an
`Except.error` result would mean an exception propagated out of detect(). -/
def detect_capabilities (env : PyEnv) : Except String CapabilityMatrix := do
  let is_admin ← if isWindowsOf env then is_admin_windows env else is_admin_linux env
  let toolsW ←
    if isWindowsOf env then do
      let npcap ← detect_npcap env
      let cmdlets ← checkCmdlets env psCmdlets
      pure (windowsToolNames.map (fun t => (t, env.hasTool t))
        ++ [("wsl", env.hasTool "wsl"), ("npcap", npcap)] ++ cmdlets)
    else pure ([] : List (String × Bool))
  let tools :=
    (if isLinuxOf env then linuxToolNames.map (fun t => (t, env.hasTool t)) else []) ++ toolsW
  let pre := buildFlagsReasons (isLinuxOf env) (isWindowsOf env) tools
  let post := adminAdvisory is_admin pre.1 pre.2
  pure { platform := env.system
         is_windows := isWindowsOf env
         is_linux := isLinuxOf env
         is_wsl := detect_wsl env
         is_admin := is_admin
         tools := tools
         feature_flags := post.1
         reasons := post.2 }

/- ### src/netreaper_gui.py : stop_all_tasks (lines 3858-3885) -/

/-- A subprocess method invocation made by stop_all_tasks. -/
inductive ProcCall
  | terminate
  | wait
  | kill
  deriving DecidableEq, Repr

/-- The observable behaviour of one live subprocess handle during shutdown. -/
structure ProcBeh where
  /-- process.terminate() raises (caught by the outer handler). -/
  termRaises : Bool
  /-- process.wait(timeout=1) raises, i.e. the process is still alive after
  the one-second grace period (or the wait itself fails). -/
  waitTimesOut : Bool
  deriving DecidableEq, Repr

/-- The sequence of subprocess calls stop_all_tasks makes for one process
(lines 3864-3876): on win32 an immediate kill; otherwise terminate, then a
one-second wait, then kill only if the wait raised; a raising terminate is
caught by the outer handler and stops the sequence. -/
def stopCalls (isWin32 : Bool) (p : ProcBeh) : List ProcCall :=
  if isWin32 then [ProcCall.kill]
  else if p.termRaises then [ProcCall.terminate]
  else if p.waitTimesOut then [ProcCall.terminate, ProcCall.wait, ProcCall.kill]
  else [ProcCall.terminate, ProcCall.wait]

/-- The live-job bookkeeping touched by stop_all_tasks. -/
structure GuiState where
  active_processes : List (String × ProcBeh)
  active_jobs : List String
  ingress_online : Bool
  deriving DecidableEq, Repr

/-- stop_all_tasks (lines 3858-3885): early return (log only) when no process
handle is live; otherwise signal every process per stopCalls, then clear both
bookkeeping dicts and drop the ingress flag. Returns the new state and the
per-job call sequences. -/
def stop_all_tasks (isWin32 : Bool) (st : GuiState) :
    GuiState × List (String × List ProcCall) :=
  if st.active_processes.isEmpty then (st, [])
  else
    ({ active_processes := []
       active_jobs := []
       ingress_online := false },
     st.active_processes.map (fun p => (p.1, stopCalls isWin32 p.2)))

/- ### Job Manager gating (job_pipeline) -/

/-- Lifecycle event types of the Job Manager. -/
inductive JobEventType
  | JOB_START
  | PRECHECK_FAIL
  | BLOCKED_BY_CAPABILITY
  | EXEC_START
  | JOB_END
  | JOB_FAIL
  deriving DecidableEq, Repr

/-- Terminal status of a job. -/
inductive JobStatus
  | success
  | failed
  | blocked
  deriving DecidableEq, Repr

/-- The part of an ExecutionResult the gating claim needs. -/
structure ExecResultM where
  returncode : Int
  error : Option String
  deriving DecidableEq, Repr

/-- A JobSpec as submitted to the Job Manager (parse/uiUpdate omitted: the
gating claim is about whether execute is ever reached). -/
structure JobSpecM where
  job_id : String
  name : String
  category : String
  feature_key : Option String
  precheck : Option (Unit → Bool × String × String)
  execute : Unit → ExecResultM

/-- What one run of a job produces: its ordered event-type sequence, its
terminal status, and how many times execute was invoked. -/
structure RunOutcome where
  events : List JobEventType
  status : JobStatus
  execCalls : Nat
  deriving DecidableEq, Repr

/-- Modelled from the spec: the execute/parse tail of the Job Manager run
(spec section 4.4) — job_pipeline.py is imported by src/netreaper_gui.py but is
not among the provided sources. Emits EXEC_START, invokes execute once, then
emits JOB_END on returncode 0 and JOB_FAIL otherwise. -/
def runExec (job : JobSpecM) : RunOutcome :=
  let r := job.execute ()
  if r.returncode = 0 then
    { events := [JobEventType.JOB_START, JobEventType.EXEC_START, JobEventType.JOB_END]
      status := JobStatus.success
      execCalls := 1 }
  else
    { events := [JobEventType.JOB_START, JobEventType.EXEC_START, JobEventType.JOB_FAIL]
      status := JobStatus.failed
      execCalls := 1 }

/-- Modelled from the spec: the precheck stage of the Job Manager (spec
section 4.4) — job_pipeline.py is not among the provided sources. A present
precheck returning ok=false yields PRECHECK_FAIL and a blocked result without
invoking execute. -/
def runAfterGate (job : JobSpecM) : RunOutcome :=
  match job.precheck with
  | some p =>
      if (p ()).1 then runExec job
      else
        { events := [JobEventType.JOB_START, JobEventType.PRECHECK_FAIL]
          status := JobStatus.blocked
          execCalls := 0 }
  | none => runExec job

/-- Modelled from the spec: JobManager.run_job submission (spec section 4.4) —
job_pipeline.py is not among the provided sources. JOB_START is emitted first;
if the job carries a featureKey whose resolution is disabled, the run stops
with BLOCKED_BY_CAPABILITY and a blocked terminal result, never reaching
execute. `resolveEnabled` is the Feature Resolver's enabled bit for a key
against the current capability snapshot. -/
def runJob (resolveEnabled : String → Bool) (job : JobSpecM) : RunOutcome :=
  match job.feature_key with
  | some k =>
      if resolveEnabled k then runAfterGate job
      else
        { events := [JobEventType.JOB_START, JobEventType.BLOCKED_BY_CAPABILITY]
          status := JobStatus.blocked
          execCalls := 0 }
  | none => runAfterGate job

/- ### Further concrete inputs used by theorems -/

/-- A definition whose base support is external_required on both OSes. -/
def defnY : FeatureDefinition :=
  { key := "y"
    support_windows := SupportLevel.external_required
    support_linux := SupportLevel.external_required
    requires_admin := false
    requires_tools := []
    windows_notes := ""
    linux_notes := ""
    recommended_path := "" }

/-- A native, admin-free definition requiring the single tool "bar". -/
def defnZ : FeatureDefinition :=
  { key := "z"
    support_windows := SupportLevel.unsupported
    support_linux := SupportLevel.native
    requires_admin := false
    requires_tools := ["bar"]
    windows_notes := ""
    linux_notes := ""
    recommended_path := "" }

/-- A PATH on which only "bar" resolves. -/
def whichBar : String → Option String := fun t => if t = "bar" then some "/usr/bin/bar" else none

/-- A different PATH on which "bar" also resolves (to another location). -/
def whichBar2 : String → Option String := fun t => if t = "bar" then some "/opt/bar" else none

/- ### Theorems for the feature resolver claims -/

/-- Claim C2: Scenario A — definition with linux:native, requiresAdmin true,
requiredTools ["foo"], resolved for "linux" against snapshot {isAdmin:false,
tools:{foo:true}} yields enabled false, reason exactly "Requires
administrator/root privileges", effectiveSupport unsupported, no missing
tools, and an empty badge, for every ambient PATH state. -/
theorem c2_scenario_a (which : String → Option String) :
    (resolve_feature_support defnX "linux" [("foo", true)] false which).enabled = false
    ∧ (resolve_feature_support defnX "linux" [("foo", true)] false which).reason
        = "Requires administrator/root privileges"
    ∧ (resolve_feature_support defnX "linux" [("foo", true)] false which).effective_support
        = SupportLevel.unsupported
    ∧ missingTools defnX [("foo", true)] which = []
    ∧ (resolve_feature_support defnX "linux" [("foo", true)] false which).badge = "" :=
  ⟨rfl, rfl, rfl, rfl, rfl⟩

/-- Claim C3: whenever the base support for the given os key is unsupported or
external_required, resolve_feature_support returns enabled = false, for every
tools snapshot, admin state and ambient PATH state. -/
theorem c3_unsupported_always_disabled (d : FeatureDefinition) (os_key : String)
    (tools : List (String × Bool)) (is_admin : Bool) (which : String → Option String)
    (h : d.support_for os_key = SupportLevel.unsupported
        ∨ d.support_for os_key = SupportLevel.external_required) :
    (resolve_feature_support d os_key tools is_admin which).enabled = false := by
  rcases h with h | h <;> simp [resolve_feature_support, h]

/-- Witness for c3_unsupported_always_disabled at a concrete definition:
defnX on "windows" has unsupported base support and resolves to disabled. -/
theorem c3_witness :
    (defnX.support_for "windows" = SupportLevel.unsupported
        ∨ defnX.support_for "windows" = SupportLevel.external_required)
    ∧ (resolve_feature_support defnX "windows" [] false whichNone).enabled = false :=
  ⟨Or.inl rfl, c3_unsupported_always_disabled defnX "windows" [] false whichNone (Or.inl rfl)⟩

/-- Witness for c2_scenario_a at the concrete empty PATH. -/
theorem c2_witness :
    (resolve_feature_support defnX "linux" [("foo", true)] false whichNone).enabled = false
    ∧ (resolve_feature_support defnX "linux" [("foo", true)] false whichNone).reason
        = "Requires administrator/root privileges" :=
  ⟨(c2_scenario_a whichNone).1, (c2_scenario_a whichNone).2.1⟩

/-- Counterexample to claim C4 as stated: resolve_feature_support is not a
function of the definition, os key and snapshot alone — line 359 consults the
ambient PATH via shutil.which, and two runs with identical arguments but
different PATH states disagree (here even on the enabled bit). -/
theorem c4_counterexample :
    (resolve_feature_support defnZ "linux" [] true whichNone).enabled = false
    ∧ (resolve_feature_support defnZ "linux" [] true whichBar).enabled = true
    ∧ resolve_feature_support defnZ "linux" [] true whichNone
        ≠ resolve_feature_support defnZ "linux" [] true whichBar := by
  refine ⟨rfl, rfl, by decide⟩

/-- Claim C4 amended: resolve_feature_support is deterministic in its
arguments together with the ambient PATH lookup — two calls with identical
definition, os key, tools snapshot and admin state whose PATH lookups agree
(in presence) on the definition's required tools yield identical results. -/
theorem c4_deterministic_given_path (d : FeatureDefinition) (os_key : String)
    (tools : List (String × Bool)) (is_admin : Bool)
    (w1 w2 : String → Option String)
    (h : ∀ t ∈ d.requires_tools, (w1 t).isNone = (w2 t).isNone) :
    resolve_feature_support d os_key tools is_admin w1
      = resolve_feature_support d os_key tools is_admin w2 := by
  have hm : missingTools d tools w1 = missingTools d tools w2 := by
    unfold missingTools
    exact List.filter_congr (fun t ht => by rw [h t ht])
  unfold resolve_feature_support
  rw [hm]

/-- Witness for c4_deterministic_given_path: two distinct PATH states agreeing
in presence on defnZ's required tools give identical resolutions. -/
theorem c4_witness :
    (∀ t ∈ defnZ.requires_tools, (whichBar t).isNone = (whichBar2 t).isNone)
    ∧ resolve_feature_support defnZ "linux" [] true whichBar
        = resolve_feature_support defnZ "linux" [] true whichBar2 :=
  ⟨by decide, c4_deterministic_given_path defnZ "linux" [] true whichBar whichBar2 (by decide)⟩

/-- Counterexample to claim C5 as stated: "darwin" is neither of the two
declared support-map keys, yet support_for (and hence resolve's base support,
line 345) yields the definition's linux entry — native here — instead of the
claimed unsupported default. -/
theorem c5_counterexample :
    ¬ ("darwin" = "windows") ∧ ¬ ("darwin" = "linux")
    ∧ (resolve_feature_support defnX "darwin" [] true whichNone).base_support
        = SupportLevel.native
    ∧ SupportLevel.native ≠ SupportLevel.unsupported := by
  refine ⟨by decide, by decide, rfl, by decide⟩

/-- Claim C5 amended: resolve takes baseSupport from support_for, which selects
the windows entry exactly for osKey "windows" and falls back to the linux
entry for every other osKey (no unsupported default for unknown keys). -/
theorem c5_base_support_selection (d : FeatureDefinition) (os_key : String)
    (tools : List (String × Bool)) (is_admin : Bool) (which : String → Option String) :
    (resolve_feature_support d os_key tools is_admin which).base_support = d.support_for os_key
    ∧ d.support_for os_key
        = (if os_key = "windows" then d.support_windows else d.support_linux) :=
  ⟨rfl, rfl⟩

/-- Witness for c5_base_support_selection at a concrete non-windows os key. -/
theorem c5_witness :
    (resolve_feature_support defnX "linux" [] false whichNone).base_support
        = defnX.support_for "linux"
    ∧ defnX.support_for "linux" = SupportLevel.native :=
  ⟨(c5_base_support_selection defnX "linux" [] false whichNone).1, rfl⟩

/-- Counterexample to claim C6 as stated: for an external_required base the
badge is the string "WSL/External Required" (line 382), not
"External/Bridge Required". -/
theorem c6_counterexample :
    (resolve_feature_support defnY "linux" [] true whichNone).base_support
        = SupportLevel.external_required
    ∧ (resolve_feature_support defnY "linux" [] true whichNone).badge
        = "WSL/External Required"
    ∧ (resolve_feature_support defnY "linux" [] true whichNone).badge
        ≠ "External/Bridge Required" := by
  refine ⟨rfl, rfl, by decide⟩

/-- Claim C6 amended: for every definition, os key and snapshot, the badge is
"WSL/External Required" iff the base support is external_required, and the
empty string otherwise. -/
theorem c6_badge (d : FeatureDefinition) (os_key : String)
    (tools : List (String × Bool)) (is_admin : Bool) (which : String → Option String) :
    (resolve_feature_support d os_key tools is_admin which).badge
      = (if d.support_for os_key = SupportLevel.external_required
         then "WSL/External Required" else "") :=
  rfl

/-- Witness for c6_badge at a concrete external_required definition. -/
theorem c6_witness :
    (resolve_feature_support defnY "windows" [] true whichNone).badge
      = (if defnY.support_for "windows" = SupportLevel.external_required
         then "WSL/External Required" else "") :=
  c6_badge defnY "windows" [] true whichNone

/- ### Helper lemmas about lookups and the capability probes -/

theorem lookupStr_append {α : Type} (l₁ l₂ : List (String × α)) (n : String) :
    lookupStr (l₁ ++ l₂) n
      = match lookupStr l₁ n with
        | some v => some v
        | none => lookupStr l₂ n := by
  induction l₁ with
  | nil => rfl
  | cons p rest ih =>
      obtain ⟨k, v⟩ := p
      by_cases h : k = n <;> simp [lookupStr, h, ih]

theorem lookup_setdefault_some (m : List (String × String)) (k v n r : String)
    (h : lookupStr m n = some r) : lookupStr (setdefault m k v) n = some r := by
  unfold setdefault
  cases hk : lookupStr m k with
  | some w => exact h
  | none => rw [lookupStr_append, h]

theorem lookup_setdefault_none_ne (m : List (String × String)) (k v n : String)
    (h : lookupStr m n = none) (hk : k ≠ n) :
    lookupStr (setdefault m k v) n = none := by
  unfold setdefault
  cases hq : lookupStr m k with
  | some w => exact h
  | none =>
      rw [lookupStr_append, h]
      simp [lookupStr, hk]

theorem lookup_setdefault_none_eq (m : List (String × String)) (k v n : String)
    (h : lookupStr m n = none) (hk : k = n) :
    lookupStr (setdefault m k v) n = some v := by
  subst hk
  unfold setdefault
  rw [h, lookupStr_append, h]
  simp [lookupStr]

theorem has_powershell_cmdlet_ok (env : PyEnv) (c : String) :
    has_powershell_cmdlet env c = Except.ok (has_powershell_cmdletB env c) := by
  unfold has_powershell_cmdlet has_powershell_cmdletB
  cases h : env.hasTool "powershell" <;> cases h2 : env.runPowershell c <;> simp [h, h2]

theorem is_admin_windows_ok (env : PyEnv) :
    is_admin_windows env = Except.ok (is_admin_windowsB env) := by
  unfold is_admin_windows is_admin_windowsB
  cases h : env.isUserAnAdmin <;> rfl

theorem is_admin_linux_ok (env : PyEnv) :
    is_admin_linux env = Except.ok (is_admin_linuxB env) := by
  unfold is_admin_linux is_admin_linuxB
  cases h : env.geteuid <;> rfl

theorem detect_npcap_ok (env : PyEnv) :
    detect_npcap env = Except.ok (detect_npcapB env) := by
  unfold detect_npcap detect_npcapB
  cases h : env.scQueryNpcap with
  | error e => rfl
  | ok v => obtain ⟨rc, out⟩ := v; rfl

theorem checkCmdlets_ok (env : PyEnv) (l : List String) :
    checkCmdlets env l = Except.ok (checkCmdletsB env l) := by
  induction l with
  | nil => rfl
  | cons c rest ih =>
      unfold checkCmdlets checkCmdletsB
      rw [has_powershell_cmdlet_ok env c, ih]
      rfl

theorem detect_capabilities_ok (env : PyEnv) :
    detect_capabilities env = Except.ok (detect_pure env) := by
  unfold detect_capabilities detect_pure postOf preOf toolsOf isAdminOf
  cases hW : isWindowsOf env <;> cases hL : isLinuxOf env <;>
    simp only [hW, hL, is_admin_windows_ok, is_admin_linux_ok, detect_npcap_ok,
      checkCmdlets_ok, if_true, if_false, Bool.false_eq_true, ite_true, ite_false] <;>
    rfl

theorem adminAdvisory_fst (a : Bool) (ff : List (String × Bool))
    (rs : List (String × String)) : (adminAdvisory a ff rs).1 = ff := by
  unfold adminAdvisory
  split <;> rfl

theorem adminAdvisory_lookup_some (a : Bool) (ff : List (String × Bool))
    (rs : List (String × String)) (n r : String) (h : lookupStr rs n = some r) :
    lookupStr (adminAdvisory a ff rs).2 n = some r := by
  unfold adminAdvisory
  by_cases ha : a
  · simpa [ha] using h
  · by_cases h1 : dictGetB ff "can_scan_wifi" <;>
      by_cases h2 : dictGetB ff "can_host_discovery_full" <;>
        simp only [ha, h1, h2, if_true, if_false, Bool.false_eq_true, ite_true, ite_false] <;>
          first
          | exact lookup_setdefault_some _ _ _ _ _ (lookup_setdefault_some _ _ _ _ _ h)
          | exact lookup_setdefault_some _ _ _ _ _ h
          | exact h

theorem adminAdvisory_lookup_changed (a : Bool) (ff : List (String × Bool))
    (rs : List (String × String)) (n : String)
    (h : lookupStr (adminAdvisory a ff rs).2 n ≠ lookupStr rs n) :
    a = false
    ∧ (n = "can_scan_wifi" ∨ n = "can_host_discovery_full")
    ∧ dictGetB ff n = true
    ∧ lookupStr (adminAdvisory a ff rs).2 n = some adminAdvisoryMsg := by
  by_cases ha : a
  · exact absurd (by simp [adminAdvisory, ha]) h
  · cases hrs : lookupStr rs n with
    | some r =>
        exact absurd ((adminAdvisory_lookup_some a ff rs n r hrs).trans hrs.symm) h
    | none =>
        have haf : a = false := by simpa using ha
        by_cases hA : n = "can_scan_wifi"
        · subst hA
          by_cases h1 : dictGetB ff "can_scan_wifi"
          · have hx : lookupStr (adminAdvisory a ff rs).2 "can_scan_wifi"
                = some adminAdvisoryMsg := by
              have hs1 : lookupStr (setdefault rs "can_scan_wifi" adminAdvisoryMsg)
                  "can_scan_wifi" = some adminAdvisoryMsg :=
                lookup_setdefault_none_eq _ _ _ _ hrs rfl
              by_cases h2 : dictGetB ff "can_host_discovery_full" <;>
                simp only [adminAdvisory, haf, h1, h2, if_true, if_false,
                  Bool.false_eq_true, ite_true, ite_false] <;>
                first
                | exact lookup_setdefault_some _ _ _ _ _ hs1
                | exact hs1
            exact ⟨haf, Or.inl rfl, h1, hx⟩
          · exfalso
            apply h
            rw [hrs]
            by_cases h2 : dictGetB ff "can_host_discovery_full" <;>
              simp only [adminAdvisory, haf, h1, h2, if_true, if_false,
                Bool.false_eq_true, ite_true, ite_false]
            · exact lookup_setdefault_none_ne _ _ _ _ hrs (by decide)
            · exact hrs
        · by_cases hB : n = "can_host_discovery_full"
          · subst hB
            by_cases h2 : dictGetB ff "can_host_discovery_full"
            · have hx : lookupStr (adminAdvisory a ff rs).2 "can_host_discovery_full"
                  = some adminAdvisoryMsg := by
                by_cases h1 : dictGetB ff "can_scan_wifi" <;>
                  simp only [adminAdvisory, haf, h1, h2, if_true, if_false,
                    Bool.false_eq_true, ite_true, ite_false]
                · exact lookup_setdefault_none_eq _ _ _ _
                    (lookup_setdefault_none_ne _ _ _ _ hrs (by decide)) rfl
                · exact lookup_setdefault_none_eq _ _ _ _ hrs rfl
              exact ⟨haf, Or.inr rfl, h2, hx⟩
            · exfalso
              apply h
              rw [hrs]
              by_cases h1 : dictGetB ff "can_scan_wifi" <;>
                simp only [adminAdvisory, haf, h1, h2, if_true, if_false,
                  Bool.false_eq_true, ite_true, ite_false]
              · exact lookup_setdefault_none_ne _ _ _ _ hrs (fun hh => hA hh.symm)
              · exact hrs
          · exfalso
            apply h
            rw [hrs]
            by_cases h1 : dictGetB ff "can_scan_wifi" <;>
              by_cases h2 : dictGetB ff "can_host_discovery_full" <;>
                simp only [adminAdvisory, haf, h1, h2, if_true, if_false,
                  Bool.false_eq_true, ite_true, ite_false]
            · exact lookup_setdefault_none_ne _ _ _ _
                (lookup_setdefault_none_ne _ _ _ _ hrs (fun hh => hA hh.symm))
                (fun hh => hB hh.symm)
            · exact lookup_setdefault_none_ne _ _ _ _ hrs (fun hh => hA hh.symm)
            · exact lookup_setdefault_none_ne _ _ _ _ hrs (fun hh => hB hh.symm)
            · exact hrs

/- ### Concrete environments and states used by witnesses -/

/-- A hostile environment: every raising sub-probe raises. -/
def envFail : PyEnv :=
  { system := "Windows"
    hasTool := fun _ => true
    runPowershell := fun _ => Except.error "boom"
    isUserAnAdmin := Except.error "boom"
    geteuid := none
    wslInterop := none
    wslDistroName := none
    scQueryNpcap := Except.error "boom" }

/-- A non-root Linux host on which only nmcli is installed. -/
def envLC : PyEnv :=
  { system := "Linux"
    hasTool := fun t => t == "nmcli"
    runPowershell := fun _ => Except.error "no powershell"
    isUserAnAdmin := Except.error "no ctypes"
    geteuid := some 1000
    wslInterop := none
    wslDistroName := none
    scQueryNpcap := Except.error "no sc" }

/-- An empty capability matrix. -/
def capsEmpty : CapabilityMatrix :=
  { platform := ""
    is_windows := false
    is_linux := false
    is_wsl := false
    is_admin := false
    tools := []
    feature_flags := []
    reasons := [] }

/- ### Theorems for the capability claims -/

/-- Claim C7: detect_capabilities never propagates an exception — it always
returns Except.ok with a complete CapabilityMatrix — and each raising
sub-probe (PowerShell cmdlet check, Windows admin check, Linux euid lookup,
npcap service query) independently degrades to false instead of aborting. -/
theorem c7_detect_never_raises (env : PyEnv) (cmdlet err : String) :
    detect_capabilities env = Except.ok (detect_pure env)
    ∧ (env.runPowershell cmdlet = Except.error err →
        has_powershell_cmdlet env cmdlet = Except.ok false)
    ∧ (env.isUserAnAdmin = Except.error err → is_admin_windows env = Except.ok false)
    ∧ (env.geteuid = none → is_admin_linux env = Except.ok false)
    ∧ (env.scQueryNpcap = Except.error err → detect_npcap env = Except.ok false) := by
  refine ⟨detect_capabilities_ok env, ?_, ?_, ?_, ?_⟩
  · intro h
    by_cases hp : env.hasTool "powershell" <;> simp [has_powershell_cmdlet, hp, h]
  · intro h
    simp [is_admin_windows, h]
  · intro h
    simp [is_admin_linux, h]
  · intro h
    simp [detect_npcap, h]

/-- Witness for c7_detect_never_raises: in an environment where every raising
sub-probe raises, detection still returns a complete snapshot and the
PowerShell probe degrades to false. -/
theorem c7_witness :
    envFail.runPowershell "Get-NetAdapter" = Except.error "boom"
    ∧ has_powershell_cmdlet envFail "Get-NetAdapter" = Except.ok false
    ∧ detect_capabilities envFail = Except.ok (detect_pure envFail) :=
  ⟨rfl, (c7_detect_never_raises envFail "Get-NetAdapter" "boom").2.1 rfl,
    (c7_detect_never_raises envFail "Get-NetAdapter" "boom").1⟩

/-- Claim C8: in the snapshot detect() returns, the admin-advisory step never
changes a feature flag (flags equal the pre-admin flags, which are a function
of the OS booleans and tool presence only); an existing reason is never
overwritten; and any reason entry that differs from the pre-admin state can
only be the non-blocking advisory string, attached when isAdmin is false, to
one of the two elevated-access flags, and only when that flag is true. -/
theorem c8_admin_only_advisory (env envB : PyEnv) (n : String) :
    (detect_pure env).feature_flags = (preOf env).1
    ∧ (toolsOf envB = toolsOf env → isLinuxOf envB = isLinuxOf env →
        isWindowsOf envB = isWindowsOf env →
        (detect_pure envB).feature_flags = (detect_pure env).feature_flags)
    ∧ (∀ r, lookupStr (preOf env).2 n = some r →
        lookupStr (detect_pure env).reasons n = some r)
    ∧ (lookupStr (detect_pure env).reasons n ≠ lookupStr (preOf env).2 n →
        (detect_pure env).is_admin = false
        ∧ (n = "can_scan_wifi" ∨ n = "can_host_discovery_full")
        ∧ dictGetB (preOf env).1 n = true
        ∧ lookupStr (detect_pure env).reasons n = some adminAdvisoryMsg) := by
  refine ⟨?_, ?_, ?_, ?_⟩
  · show (postOf env).1 = (preOf env).1
    exact adminAdvisory_fst _ _ _
  · intro ht hl hw
    show (postOf envB).1 = (postOf env).1
    unfold postOf
    rw [adminAdvisory_fst, adminAdvisory_fst]
    unfold preOf
    rw [ht, hl, hw]
  · intro r h
    exact adminAdvisory_lookup_some _ _ _ _ _ h
  · intro h
    exact adminAdvisory_lookup_changed _ _ _ _ h

/-- Witness for c8_admin_only_advisory: on a non-root Linux host with nmcli,
the snapshot carries the advisory reason for can_scan_wifi (whose flag stays
true, as the flag conjunct at the same instance shows). -/
theorem c8_witness :
    lookupStr (detect_pure envLC).reasons "can_scan_wifi" = some adminAdvisoryMsg
    ∧ (detect_pure envLC).feature_flags = (preOf envLC).1 :=
  ⟨((c8_admin_only_advisory envLC envLC "can_scan_wifi").2.2.2 (by decide)).2.2.2,
    (c8_admin_only_advisory envLC envLC "can_scan_wifi").1⟩

/-- Claim C10: CapabilityMatrix.flag returns false for a name with no
feature_flags entry and the stored boolean otherwise, and
CapabilityMatrix.reason returns "" for a name with no reasons entry and the
stored string otherwise; both are total functions (they cannot raise). -/
theorem c10_accessor_defaults (m : CapabilityMatrix) (name : String) :
    (lookupStr m.feature_flags name = none → m.flag name = false)
    ∧ (∀ b, lookupStr m.feature_flags name = some b → m.flag name = b)
    ∧ (lookupStr m.reasons name = none → m.reason name = "")
    ∧ (∀ s, lookupStr m.reasons name = some s → m.reason name = s) := by
  refine ⟨?_, ?_, ?_, ?_⟩
  · intro h
    simp [CapabilityMatrix.flag, dictGet, h]
  · intro b h
    simp [CapabilityMatrix.flag, dictGet, h]
  · intro h
    simp [CapabilityMatrix.reason, dictGet, h]
  · intro s h
    simp [CapabilityMatrix.reason, dictGet, h]

/-- Witness for c10_accessor_defaults on the empty matrix: absent names give
false and the empty string. -/
theorem c10_witness :
    lookupStr capsEmpty.feature_flags "can_scan_wifi" = none
    ∧ capsEmpty.flag "can_scan_wifi" = false
    ∧ lookupStr capsEmpty.reasons "can_scan_wifi" = none
    ∧ capsEmpty.reason "can_scan_wifi" = "" :=
  ⟨rfl, (c10_accessor_defaults capsEmpty "can_scan_wifi").1 rfl, rfl,
    (c10_accessor_defaults capsEmpty "can_scan_wifi").2.2.1 rfl⟩

/- ### Theorems for the stop-all claim -/

/-- A process that terminates promptly on the graceful signal. -/
def procQuiet : ProcBeh := { termRaises := false, waitTimesOut := false }

/-- A process still alive after the one-second grace period. -/
def procSlow : ProcBeh := { termRaises := false, waitTimesOut := true }

/-- One live process on a win32 host. -/
def stWinOne : GuiState :=
  { active_processes := [("j1", procQuiet)], active_jobs := ["j1"], ingress_online := true }

/-- A job still tracked as active although no process handle is live. -/
def stOrphan : GuiState :=
  { active_processes := [], active_jobs := ["j2"], ingress_online := true }

/-- Two live processes on a POSIX host. -/
def stPosix : GuiState :=
  { active_processes := [("j1", procQuiet), ("j2", procSlow)]
    active_jobs := ["j1", "j2"]
    ingress_online := true }

/-- Counterexample to claim C9 as stated: on win32 the code kills each process
immediately (lines 3866-3867), with no prior graceful termination signal; and
when no process handle is live (line 3860) the early return leaves a job that
is still tracked as active in the bookkeeping, so it is not reset. -/
theorem c9_counterexample :
    stopCalls true procQuiet = [ProcCall.kill]
    ∧ (stopCalls true procQuiet).head? ≠ some ProcCall.terminate
    ∧ (stop_all_tasks true stOrphan).1.active_jobs = ["j2"]
    ∧ ¬ ((stop_all_tasks true stOrphan).1.active_jobs = []) := by
  refine ⟨rfl, by decide, rfl, by decide⟩

/-- Claim C9 amended: when at least one process handle is live, stop_all_tasks
clears all process and job bookkeeping, and signals each process as follows:
on win32 an immediate kill; on other platforms a graceful terminate followed
by a one-second wait, with a forced kill exactly when the wait fails (process
still alive). When no process handle is live it only logs. -/
theorem c9_stop_all_terminate_then_kill (isWin32 : Bool) (st : GuiState) (p : ProcBeh)
    (h : st.active_processes ≠ []) :
    (stop_all_tasks isWin32 st).1.active_processes = []
    ∧ (stop_all_tasks isWin32 st).1.active_jobs = []
    ∧ (stop_all_tasks isWin32 st).2
        = st.active_processes.map (fun q => (q.1, stopCalls isWin32 q.2))
    ∧ (isWin32 = true → stopCalls isWin32 p = [ProcCall.kill])
    ∧ (isWin32 = false → p.termRaises = false → p.waitTimesOut = true →
        stopCalls isWin32 p = [ProcCall.terminate, ProcCall.wait, ProcCall.kill])
    ∧ (isWin32 = false → p.termRaises = false → p.waitTimesOut = false →
        stopCalls isWin32 p = [ProcCall.terminate, ProcCall.wait]) := by
  have hne : st.active_processes.isEmpty = false := by
    cases hp : st.active_processes with
    | nil => exact absurd hp h
    | cons a l => rfl
  refine ⟨?_, ?_, ?_, ?_, ?_, ?_⟩
  · simp [stop_all_tasks, hne]
  · simp [stop_all_tasks, hne]
  · simp [stop_all_tasks, hne]
  · intro hw
    simp [stopCalls, hw]
  · intro hw ht hwt
    simp [stopCalls, hw, ht, hwt]
  · intro hw ht hwt
    simp [stopCalls, hw, ht, hwt]

/-- Witness for c9_stop_all_terminate_then_kill on a POSIX host with two live
processes: bookkeeping is cleared and a still-alive process gets terminate,
wait, then kill. -/
theorem c9_witness :
    stPosix.active_processes ≠ []
    ∧ (stop_all_tasks false stPosix).1.active_jobs = []
    ∧ stopCalls false procSlow = [ProcCall.terminate, ProcCall.wait, ProcCall.kill] :=
  ⟨by decide, (c9_stop_all_terminate_then_kill false stPosix procSlow (by decide)).2.1,
    (c9_stop_all_terminate_then_kill false stPosix procSlow (by decide)).2.2.2.2.1
      rfl rfl rfl⟩

/- ### Theorems for the blocked-job gating claim -/

/-- A synthetic self-test probe JobSpec, in the shape submitted by
_run_blocked_feature_probes (src/netreaper_gui.py lines 3407-3431): its
execute would report failure if it were ever invoked. -/
def probeJob : JobSpecM :=
  { job_id := "probe1"
    name := "Self-test probe: wireless.wps_attack"
    category := "diagnostics"
    feature_key := some "wireless.wps_attack"
    precheck := some (fun _ => (false, "Feature unavailable", ""))
    execute := fun _ => { returncode := 1, error := some "Probe executed unexpectedly" } }

/-- A resolver under which every feature key is disabled. -/
def resolveAllBlocked : String → Bool := fun _ => false

/-- Claim C1: for every JobSpec whose featureKey resolves to enabled false,
the Job Manager run emits exactly JOB_START then BLOCKED_BY_CAPABILITY, never
emits EXEC_START, never invokes execute (invocation count 0), and ends with a
blocked terminal result. -/
theorem c1_no_execute_when_blocked (resolveEnabled : String → Bool)
    (job : JobSpecM) (k : String)
    (hk : job.feature_key = some k) (hres : resolveEnabled k = false) :
    (runJob resolveEnabled job).events
        = [JobEventType.JOB_START, JobEventType.BLOCKED_BY_CAPABILITY]
    ∧ JobEventType.EXEC_START ∉ (runJob resolveEnabled job).events
    ∧ (runJob resolveEnabled job).status = JobStatus.blocked
    ∧ (runJob resolveEnabled job).execCalls = 0 := by
  have hrun : runJob resolveEnabled job
      = { events := [JobEventType.JOB_START, JobEventType.BLOCKED_BY_CAPABILITY]
          status := JobStatus.blocked
          execCalls := 0 } := by
    unfold runJob
    rw [hk]
    simp [hres]
  rw [hrun]
  exact ⟨rfl, by decide, rfl, rfl⟩

/-- Witness for c1_no_execute_when_blocked: the synthetic probe job against an
all-blocking resolver is blocked without its execute ever being invoked. -/
theorem c1_witness :
    probeJob.feature_key = some "wireless.wps_attack"
    ∧ resolveAllBlocked "wireless.wps_attack" = false
    ∧ (runJob resolveAllBlocked probeJob).execCalls = 0
    ∧ JobEventType.EXEC_START ∉ (runJob resolveAllBlocked probeJob).events :=
  ⟨rfl, rfl,
    (c1_no_execute_when_blocked resolveAllBlocked probeJob "wireless.wps_attack"
      rfl rfl).2.2.2,
    (c1_no_execute_when_blocked resolveAllBlocked probeJob "wireless.wps_attack"
      rfl rfl).2.1⟩

end NetNinja

